import Mathlib

/-!
Verification of the json2plot configuration loader and chart renderer
(src/json2plot.py) against its natural-language specification.

The development shallowly embeds the relevant Python code:

* JSON values decoded by json.load are modelled by JVal; Python floats are
  modelled by exact rationals (the program only stores and compares them,
  never does float arithmetic).
* Fallible Python operations (dict lookup, len(), indexing, iteration)
  return Except PyErr; an Except.error that propagates out of process_json
  models an uncaught Python exception that terminates the run with a
  traceback.
* Python's chained equality quirks that the program relies on are modelled
  by dedicated comparison functions: pyEq1 (v == 1 is true for the int 1,
  the float 1.0 and the bool True), pyEq0 (v == 0), pyEqStr (v == "...").
* re.match of the Python standard library is modelled by a small regular
  expression type with Brzozowski-derivative matching; reMatch anchors at
  the start of the string but may match a proper prefix, exactly like
  re.match (a full match is not required).
-/

/-- A decoded JSON value (the result of json.load), including Python's
distinction between the boolean, integer and float it decodes to. -/
inductive JVal where
  | null
  | bool (b : Bool)
  | int (n : Int)
  | float (q : Rat)
  | str (s : String)
  | arr (elems : List JVal)
  | obj (fields : List (String × JVal))

/-- A decoded JSON object (Python dict with string keys, distinct by
construction of json.load). -/
abbrev JObj := List (String × JVal)

/-- The Python exceptions the embedded code can raise.  None of them is a
ValueError, so none is caught by the try/except in process_file. -/
inductive PyErr where
  | keyError (k : String)
  | typeError
  | indexError
deriving DecidableEq

/-- Dict lookup that cannot fail: `o[k]` guarded by `k in o`. -/
def lookup? (o : JObj) (k : String) : Option JVal :=
  (o.find? (fun kv => kv.1 == k)).map (fun kv => kv.2)

/-- Python len().  Sequences and dicts have a length; numbers, booleans and
None raise TypeError. -/
def pyLen (v : JVal) : Except PyErr Nat :=
  match v with
  | .arr l => .ok l.length
  | .str s => .ok s.length
  | .obj kvs => .ok kvs.length
  | _ => .error .typeError

/-- Substring test on strings (Python `pat in s` for strings), including
the empty pattern matching everywhere. -/
def isSubstrL (pat s : List Char) : Bool :=
  (List.range (s.length + 1)).any (fun i => pat.isPrefixOf (s.drop i))

/-- String version of isSubstrL. -/
def isSubstrB (pat s : String) : Bool := isSubstrL pat.data s.data

/-- Python `v == "t"` for a string literal t: only equal strings compare
equal; every other value compares unequal without error. -/
def pyEqStr (v : JVal) (t : String) : Bool :=
  match v with
  | .str s => s == t
  | _ => false

/-- Python `v == 1`: true for the int 1, the float 1.0 and the bool True
(bool is a subclass of int in Python and True == 1). -/
def pyEq1 : JVal → Bool
  | .int n => n == 1
  | .float q => q == 1
  | .bool b => b
  | _ => false

/-- Python `v == 0`: true for the int 0, the float 0.0 and the bool False. -/
def pyEq0 : JVal → Bool
  | .int n => n == 0
  | .float q => q == 0
  | .bool b => !b
  | _ => false

/-- Python `item in container` for a string item: key membership for dicts,
substring for strings, elementwise == for lists; iteration over a number,
boolean or None raises TypeError. -/
def pyContains (container : JVal) (item : String) : Except PyErr Bool :=
  match container with
  | .obj kvs => .ok (kvs.any (fun kv => kv.1 == item))
  | .arr l => .ok (l.any (fun v => pyEqStr v item))
  | .str s => .ok (isSubstrB item s)
  | _ => .error .typeError

/-- Python `container[key]` for a string key: dict lookup (KeyError when
absent); indexing a list or string with a string, or subscripting a
scalar, raises TypeError. -/
def pySubscript (container : JVal) (key : String) : Except PyErr JVal :=
  match container with
  | .obj kvs =>
    match (kvs.find? (fun kv => kv.1 == key)).map (fun kv => kv.2) with
    | some v => .ok v
    | none => .error (.keyError key)
  | _ => .error .typeError

/-- Python iteration `for v in x`: lists yield their elements, strings
their one-character substrings, dicts their keys; numbers, booleans and
None raise TypeError. -/
def pyIter (v : JVal) : Except PyErr (List JVal) :=
  match v with
  | .arr l => .ok l
  | .str s => .ok (s.data.map (fun c => .str (String.mk [c])))
  | .obj kvs => .ok (kvs.map (fun kv => .str kv.1))
  | _ => .error .typeError

/-- Python `v[i]` for a natural index: list/str indexing with IndexError
out of range; a dict with string keys raises KeyError for an int key;
scalars raise TypeError. -/
def pyIdx (v : JVal) (i : Nat) : Except PyErr JVal :=
  match v with
  | .arr l =>
    match l.get? i with
    | some x => .ok x
    | none => .error .indexError
  | .str s =>
    match s.data.get? i with
    | some c => .ok (.str (String.mk [c]))
    | none => .error .indexError
  | .obj _ => .error (.keyError (toString i))
  | _ => .error .typeError

/-- Indexing the stored x_lim/y_lim tuple (tuple(raw list)). -/
def listIdx (l : List JVal) (i : Nat) : Except PyErr JVal :=
  match l.get? i with
  | some v => .ok v
  | none => .error .indexError

/-- Python `v is None`. -/
def JVal.isNull : JVal → Bool
  | .null => true
  | _ => false

/-! ## Data model: Series, Fill, ChartConfig (PlotData's fields) -/

/-- One plotted line (class Series of the source). -/
structure Series where
  name : Option JVal
  color : Option JVal
  linewidth : JVal
  linestyle : Option JVal
  marker : Option JVal
  marker_size : JVal
  x : List JVal
  y : List JVal

/-- One shaded region (class Fill of the source); the np.array wrappers are
modelled as the underlying lists. -/
structure Fill where
  color : Option JVal
  x : List JVal
  y0 : List JVal
  y1 : List JVal

/-- The settings PlotData.__init__ initialises and process_json fills in. -/
structure ChartConfig where
  title : Option JVal
  x_label : Option JVal
  y_label : Option JVal
  legend_y_offset : JVal
  legend_loc : JVal
  x_lim : Option (List JVal)
  y_lim : Option (List JVal)
  x_scale : Option JVal
  y_scale : Option JVal
  x_log_base : JVal
  y_log_base : JVal
  x_ticks : Option JVal
  y_ticks : Option JVal
  x_ticks_labels : Option JVal
  y_ticks_labels : Option JVal
  x_ticks_minor : Bool
  y_ticks_minor : Bool
  grid_major : Bool
  grid_minor : Bool
  series_data : Option (List Series)
  fill_data : Option (List Fill)
  fontsize_title : JVal
  fontsize_label : JVal
  fontsize_legend : JVal
  fontweight_title : JVal
  labelsize_tick : JVal

/-- The defaults set by PlotData.__init__ before process_file runs. -/
def defaultConfig : ChartConfig where
  title := none
  x_label := none
  y_label := none
  legend_y_offset := .float (-0.15)
  legend_loc := .str "best"
  x_lim := none
  y_lim := none
  x_scale := none
  y_scale := none
  x_log_base := .int 10
  y_log_base := .int 10
  x_ticks := none
  y_ticks := none
  x_ticks_labels := none
  y_ticks_labels := none
  x_ticks_minor := false
  y_ticks_minor := false
  grid_major := false
  grid_minor := false
  series_data := none
  fill_data := none
  fontsize_title := .int 16
  fontsize_label := .int 14
  fontsize_legend := .int 9
  fontweight_title := .int 600
  labelsize_tick := .int 13

/-! ## JSON key constants (the class constants of PlotData) -/

def TITLE_KEY : String := "title"
def X_LABEL_KEY : String := "x_label"
def Y_LABEL_KEY : String := "y_label"
def LEGEND_Y_OFFSET_KEY : String := "legend_y_offset"
def LEGEND_LOC_KEY : String := "legend_loc"
def X_LIM_KEY : String := "x_lim"
def Y_LIM_KEY : String := "y_lim"
def X_SCALE_KEY : String := "x_scale"
def Y_SCALE_KEY : String := "y_scale"
def X_LOG_BASE_KEY : String := "x_log_base"
def Y_LOG_BASE_KEY : String := "y_log_base"
def X_TICKS_KEY : String := "x_ticks"
def Y_TICKS_KEY : String := "y_ticks"
def X_TICKS_LABELS_KEY : String := "x_ticks_labels"
def Y_TICKS_LABELS_KEY : String := "y_ticks_labels"
def X_TICKS_MINOR_KEY : String := "x_ticks_minor"
def Y_TICKS_MINOR_KEY : String := "y_ticks_minor"
def GRID_MAJOR_KEY : String := "grid_major"
def GRID_MINOR_KEY : String := "grid_minor"
def SERIES_TAG : String := "series"
def FILL_TAG : String := "fill"
def FONTSIZE_TITLE_KEY : String := "fontsize_title"
def FONTSIZE_LABEL_KEY : String := "fontsize_label"
def FONTSIZE_LEGEND_KEY : String := "fontsize_legend"
def FONTWEIGHT_TITLE_KEY : String := "fontweight_title"
def LABELSIZE_TICK_KEY : String := "labelsize_tick"

/-! ## Series and fill normalization (process_series_data, process_fill_data) -/

/-- The per-entry data loop of process_series_data (source lines 230-240):
x and y start empty and each data element either appends one coordinate
pair or is skipped.  A one-element list or a bare int/float appends
len(x), the number of points collected so far, as the x coordinate.
The branch for a bare value tests the exact runtime type (type(v) ==
float or type(v) == int), which excludes booleans. -/
def seriesPointsGo : List JVal → List JVal → List JVal → List JVal × List JVal
  | [], x, y => (x, y)
  | v :: rest, x, y =>
    match v with
    | .arr [a, b] => seriesPointsGo rest (x ++ [a]) (y ++ [b])
    | .arr [a] => seriesPointsGo rest (x ++ [.int x.length]) (y ++ [a])
    | .int n => seriesPointsGo rest (x ++ [.int x.length]) (y ++ [.int n])
    | .float q => seriesPointsGo rest (x ++ [.int x.length]) (y ++ [.float q])
    | _ => seriesPointsGo rest x y

/-- Conditional tag read: `entry[tag] if tag in entry else None`. -/
def tagGet (entry : JVal) (tag : String) : Except PyErr (Option JVal) := do
  if (← pyContains entry tag) then
    let v ← pySubscript entry tag
    pure (some v)
  else
    pure none

/-- One iteration of the entry loop of process_series_data (source lines
221-241). -/
def processSeriesEntry (entry : JVal) : Except PyErr Series := do
  let name ← tagGet entry "name"
  let color ← tagGet entry "color"
  let lw ← tagGet entry "linewidth"
  let linestyle ← tagGet entry "linestyle"
  let marker ← tagGet entry "marker"
  let ms ← tagGet entry "marker_size"
  let hasData ← pyContains entry "data"
  let xy ←
    if hasData then do
      let d ← pySubscript entry "data"
      let items ← pyIter d
      pure (seriesPointsGo items [] [])
    else
      pure (([] : List JVal), ([] : List JVal))
  pure { name := name, color := color,
         linewidth := lw.getD (.float 2.0),
         linestyle := linestyle, marker := marker,
         marker_size := ms.getD (.int 4),
         x := xy.1, y := xy.2 }

/-- process_series_data: iterate the raw series value and build one Series
per entry. -/
def process_series_data (v : JVal) : Except PyErr (List Series) := do
  let entries ← pyIter v
  entries.mapM processSeriesEntry

/-- The per-entry data loop of process_fill_data (source lines 255-263).
Every element is first measured with len(values), which raises TypeError
for a number, boolean or None; 3-element values are kept, 2-element ones
get 0 as lower bound, any other length is skipped. -/
def fillPointsGo : List JVal → List JVal → List JVal → List JVal →
    Except PyErr (List JVal × List JVal × List JVal)
  | [], x, y0, y1 => .ok (x, y0, y1)
  | v :: rest, x, y0, y1 =>
    match pyLen v with
    | .error e => .error e
    | .ok n =>
      if n == 3 then
        match pyIdx v 0 with
        | .error e => .error e
        | .ok a =>
          match pyIdx v 1 with
          | .error e => .error e
          | .ok b =>
            match pyIdx v 2 with
            | .error e => .error e
            | .ok c => fillPointsGo rest (x ++ [a]) (y0 ++ [b]) (y1 ++ [c])
      else if n == 2 then
        match pyIdx v 0 with
        | .error e => .error e
        | .ok a =>
          match pyIdx v 1 with
          | .error e => .error e
          | .ok b => fillPointsGo rest (x ++ [a]) (y0 ++ [.int 0]) (y1 ++ [b])
      else
        fillPointsGo rest x y0 y1

/-- One iteration of the entry loop of process_fill_data (source lines
249-266). -/
def processFillEntry (entry : JVal) : Except PyErr Fill := do
  let color ← tagGet entry "color"
  let hasData ← pyContains entry "data"
  let xyz ←
    if hasData then do
      let d ← pySubscript entry "data"
      let items ← pyIter d
      fillPointsGo items [] [] []
    else
      pure (([] : List JVal), ([] : List JVal), ([] : List JVal))
  pure { color := color, x := xyz.1, y0 := xyz.2.1, y1 := xyz.2.2 }

/-- process_fill_data: iterate the raw fill value and build one Fill per
entry. -/
def process_fill_data (v : JVal) : Except PyErr (List Fill) := do
  let entries ← pyIter v
  entries.mapM processFillEntry

/-! ## process_json: one step per recognized top-level key, applied in the
source's order. -/

/-- The unguarded copy pattern `if KEY in raw_json: self.field = raw_json[KEY]`
(used for title, labels, legend_y_offset, scales, log bases, font keys). -/
def stepCopy (key : String) (upd : JVal → ChartConfig → ChartConfig)
    (o : JObj) (c : ChartConfig) : ChartConfig :=
  match lookup? o key with
  | some v => upd v c
  | none => c

/-- The limit pattern (source lines 161-165): `KEY in raw_json and
isinstance(raw_json[KEY], list) and len(raw_json[KEY]) > 0`, storing
tuple(raw list); the isinstance guard makes the len call safe. -/
def stepLim (key : String) (upd : List JVal → ChartConfig → ChartConfig)
    (o : JObj) (c : ChartConfig) : ChartConfig :=
  match lookup? o key with
  | some (.arr l) => if l.length > 0 then upd l c else c
  | _ => c

/-- The sized pattern (source lines 176-184): `KEY in raw_json and
len(raw_json[KEY]) > 0`; len() raises TypeError on a number, boolean or
None value. -/
def stepSized (key : String) (upd : JVal → ChartConfig → ChartConfig)
    (o : JObj) (c : ChartConfig) : Except PyErr ChartConfig :=
  match lookup? o key with
  | some v =>
    match pyLen v with
    | .error e => .error e
    | .ok n => .ok (if n > 0 then upd v c else c)
  | none => .ok c

/-- The legend_loc step (source lines 158-159): presence, `is not None`,
then a len() > 0 check. -/
def stepLegendLoc (o : JObj) (c : ChartConfig) : Except PyErr ChartConfig :=
  match lookup? o LEGEND_LOC_KEY with
  | some v =>
    if v.isNull then .ok c
    else
      match pyLen v with
      | .error e => .error e
      | .ok n => .ok (if n > 0 then { c with legend_loc := v } else c)
  | none => .ok c

/-- Whether the flag value counts as true: `raw_json[KEY] == 1` or
`raw_json[KEY] == "True"` under Python equality. -/
def flagTruthy (v : JVal) : Bool := pyEq1 v || pyEqStr v "True"

/-- The condition of the flag pattern (source lines 186-195):
`KEY in raw_json and raw_json[KEY] == 1 or raw_json[KEY] == "True"`.
Python parses this as `(KEY in raw_json and raw_json[KEY] == 1) or
raw_json[KEY] == "True"`, so when the key is absent the right-hand
comparison still looks the key up and raises KeyError. -/
def flagCheck (o : JObj) (key : String) : Except PyErr Bool :=
  match lookup? o key with
  | some v => .ok (flagTruthy v)
  | none => .error (.keyError key)

/-- The flag pattern: set the field to True when flagCheck says so,
otherwise leave it unchanged. -/
def stepFlag (key : String) (upd : ChartConfig → ChartConfig)
    (o : JObj) (c : ChartConfig) : Except PyErr ChartConfig :=
  match flagCheck o key with
  | .error e => .error e
  | .ok b => .ok (if b then upd c else c)

/-- The series step (source lines 198-199). -/
def stepSeries (o : JObj) (c : ChartConfig) : Except PyErr ChartConfig :=
  match lookup? o SERIES_TAG with
  | some v =>
    match process_series_data v with
    | .error e => .error e
    | .ok sd => .ok { c with series_data := some sd }
  | none => .ok c

/-- The fill step (source lines 201-202). -/
def stepFill (o : JObj) (c : ChartConfig) : Except PyErr ChartConfig :=
  match lookup? o FILL_TAG with
  | some v =>
    match process_fill_data v with
    | .error e => .error e
    | .ok fd => .ok { c with fill_data := some fd }
  | none => .ok c

/-- PlotData.process_json (source lines 142-214): starting from the
__init__ defaults, examine each recognized key in the source's order.  An
Except.error models an uncaught Python exception escaping process_json. -/
def process_json (o : JObj) : Except PyErr ChartConfig := do
  let c := stepCopy TITLE_KEY (fun v c => { c with title := some v }) o defaultConfig
  let c := stepCopy X_LABEL_KEY (fun v c => { c with x_label := some v }) o c
  let c := stepCopy Y_LABEL_KEY (fun v c => { c with y_label := some v }) o c
  let c := stepCopy LEGEND_Y_OFFSET_KEY (fun v c => { c with legend_y_offset := v }) o c
  let c ← stepLegendLoc o c
  let c := stepLim X_LIM_KEY (fun l c => { c with x_lim := some l }) o c
  let c := stepLim Y_LIM_KEY (fun l c => { c with y_lim := some l }) o c
  let c := stepCopy X_SCALE_KEY (fun v c => { c with x_scale := some v }) o c
  let c := stepCopy Y_SCALE_KEY (fun v c => { c with y_scale := some v }) o c
  let c := stepCopy X_LOG_BASE_KEY (fun v c => { c with x_log_base := v }) o c
  let c := stepCopy Y_LOG_BASE_KEY (fun v c => { c with y_log_base := v }) o c
  let c ← stepSized X_TICKS_KEY (fun v c => { c with x_ticks := some v }) o c
  let c ← stepSized Y_TICKS_KEY (fun v c => { c with y_ticks := some v }) o c
  let c ← stepSized X_TICKS_LABELS_KEY (fun v c => { c with x_ticks_labels := some v }) o c
  let c ← stepSized Y_TICKS_LABELS_KEY (fun v c => { c with y_ticks_labels := some v }) o c
  let c ← stepFlag X_TICKS_MINOR_KEY (fun c => { c with x_ticks_minor := true }) o c
  let c ← stepFlag Y_TICKS_MINOR_KEY (fun c => { c with y_ticks_minor := true }) o c
  let c ← stepFlag GRID_MAJOR_KEY (fun c => { c with grid_major := true }) o c
  let c ← stepFlag GRID_MINOR_KEY (fun c => { c with grid_minor := true }) o c
  let c ← stepSeries o c
  let c ← stepFill o c
  let c := stepCopy FONTSIZE_TITLE_KEY (fun v c => { c with fontsize_title := v }) o c
  let c := stepCopy FONTSIZE_LABEL_KEY (fun v c => { c with fontsize_label := v }) o c
  let c := stepCopy FONTSIZE_LEGEND_KEY (fun v c => { c with fontsize_legend := v }) o c
  let c := stepCopy FONTWEIGHT_TITLE_KEY (fun v c => { c with fontweight_title := v }) o c
  let c := stepCopy LABELSIZE_TICK_KEY (fun v c => { c with labelsize_tick := v }) o c
  pure c

/-! ## process_file (source lines 126-140) -/

/-- The observable outcome of PlotData.process_file. -/
inductive LoadResult where
  | sysExit (msg : String)
  | uncaught (e : PyErr)
  | loaded (c : ChartConfig)

/-- A decoded top-level value handed to process_json must behave as a dict;
a non-dict top level makes every recognized-key access path of
process_json end in TypeError in CPython (string-key membership or
subscription on a non-dict), which this conversion raises up front. -/
def toObj (v : JVal) : Except PyErr JObj :=
  match v with
  | .obj kvs => .ok kvs
  | _ => .error .typeError

/-- PlotData.process_file.  fileExists models os.path.isfile(path);
decoded models json.load: none is a JSONDecodeError (a ValueError, caught
and turned into sys.exit), some j a successful parse.  Exceptions from
process_json are not ValueErrors and escape uncaught. -/
def process_file (fileExists : Bool) (path : String) (decoded : Option JVal) :
    LoadResult :=
  if fileExists then
    match decoded with
    | none => .sysExit "Error: Please specify a valid JSON file"
    | some j =>
      match toObj j >>= process_json with
      | .ok c => .loaded c
      | .error e => .uncaught e
  else
    .sysExit ("Error: File `" ++ path ++ "` does not exist")

/-! ## Renderer models (PlotData.plot and helpers) -/

/-- Regular expressions, modelling the patterns handed to re.compile. -/
inductive Rx where
  | fail
  | eps
  | char (c : Char)
  | dot
  | alt (a b : Rx)
  | seq (a b : Rx)
  | star (a : Rx)

/-- Whether the regex accepts the empty string. -/
def Rx.nullable : Rx → Bool
  | .fail => false
  | .eps => true
  | .char _ => false
  | .dot => false
  | .alt a b => a.nullable || b.nullable
  | .seq a b => a.nullable && b.nullable
  | .star _ => true

/-- Brzozowski derivative of the regex by one character. -/
def Rx.deriv : Rx → Char → Rx
  | .fail, _ => .fail
  | .eps, _ => .fail
  | .char c, d => if c == d then .eps else .fail
  | .dot, _ => .eps
  | .alt a b, d => .alt (a.deriv d) (b.deriv d)
  | .seq a b, d =>
    if a.nullable then .alt (.seq (a.deriv d) b) (b.deriv d)
    else .seq (a.deriv d) b
  | .star a, d => .seq (a.deriv d) (.star a)

/-- Whether the regex matches the whole character list. -/
def fullMatchL (r : Rx) (s : List Char) : Bool :=
  (s.foldl (fun r c => r.deriv c) r).nullable

/-- re.match semantics: the match is anchored at the start of the string
but may cover any number of leading characters, so it succeeds iff the
regex fully matches some (possibly empty, possibly proper) leading
segment of the name. -/
def reMatch (r : Rx) (s : String) : Bool :=
  (List.range (s.data.length + 1)).any (fun i => fullMatchL r (s.data.take i))

/-- A plain literal pattern as a regex (each character matched in turn). -/
def rxLit (s : String) : Rx :=
  s.data.foldr (fun c r => Rx.seq (.char c) r) .eps

/-- Source lines 334-338: filter_expressions starts as None and is filled
with the compiled patterns only when series_regex is both supplied and
non-empty; a supplied-but-empty regex list leaves it None. -/
def compiledExpressions (series_regex : Option (List Rx)) : Option (List Rx) :=
  match series_regex with
  | some l => if l.length > 0 then some l else none
  | none => none

/-- The per-series selection logic of PlotData.plot (source lines 341-352):
plot_series starts True only when neither filter is supplied; any
substring hit in series_filter sets it; when a regex list is supplied and
the series is still unselected, the loop `for regex in filter_expressions`
runs - iterating None (the supplied-but-empty case) raises TypeError. -/
def plotSeriesDecision (name : String) (series_filter : Option (List String))
    (series_regex : Option (List Rx)) : Except PyErr Bool :=
  let init : Bool := if series_filter.isSome || series_regex.isSome then false else true
  let p1 : Bool :=
    match series_filter with
    | some l => l.foldl (fun acc s => if isSubstrB s name then true else acc) init
    | none => init
  if series_regex.isSome && !p1 then
    match compiledExpressions series_regex with
    | none => .error .typeError
    | some l => .ok (l.foldl (fun acc r => if reMatch r name then true else acc) p1)
  else
    .ok p1

/-- What PlotData.plot installs as an axis's minor-tick locator
(source lines 313-322): NullLocator when the axis's minor-tick flag is
False, AutoMinorLocator when additionally grid_minor is set, and nothing
at all (the library default locator stays) when the flag is set but
grid_minor is not. -/
inductive MinorTickAction where
  | nullLocator
  | autoMinorLocator
  | untouched
deriving DecidableEq

/-- The minor-tick setup applied per axis (same logic for x and y). -/
def minorTickSetup (ticks_minor : Bool) (grid_minor : Bool) : MinorTickAction :=
  if ticks_minor == false then .nullLocator
  else if grid_minor then .autoMinorLocator
  else .untouched

/-- Whether the stored scale value compares equal to "log"
(Python `self.x_scale == "log"`; None and non-strings compare unequal). -/
def scaleIsLog (scale : Option JVal) : Bool :=
  match scale with
  | some v => pyEqStr v "log"
  | none => false

/-- What a present axis limit makes PlotData.plot call
(source lines 379-394): set_xlim(left=lo) / set_ylim(bottom=lo) for a
one-element limit, both bounds otherwise. -/
inductive LimEffect where
  | lower (lo : JVal)
  | both (lo hi : JVal)

/-- The per-axis limit logic (same for x and y): read element 0 of the
stored tuple, substitute the int 1 for it when the axis scale compares
equal to "log" and the element compares equal to 0, then set one or both
bounds. -/
def limitEffect (lim : List JVal) (scale : Option JVal) : Except PyErr LimEffect :=
  match listIdx lim 0 with
  | .error e => .error e
  | .ok v0 =>
    let lo := if decide (lim.length > 0) && scaleIsLog scale && pyEq0 v0
      then JVal.int 1 else v0
    if lim.length == 1 then .ok (.lower lo)
    else
      match listIdx lim 1 with
      | .error e => .error e
      | .ok v1 => .ok (.both lo v1)

/-! ## Output stage (source lines 396-415 plus user_yes_no_query) -/

/-- distutils.util.strtobool on the lowercased prompt reply; none models
the ValueError that makes user_yes_no_query reprompt. -/
def strtobool (s : String) : Option Bool :=
  if s == "y" || s == "yes" || s == "t" || s == "true" || s == "on" || s == "1"
    then some true
  else if s == "n" || s == "no" || s == "f" || s == "false" || s == "off" || s == "0"
    then some false
  else none

/-- ASCII lowercasing of the prompt reply (Python input().lower(); the y/n
replies strtobool recognizes are all ASCII). -/
def strLower (s : String) : String := String.mk (s.data.map Char.toLower)

/-- user_yes_no_query's loop: keep reading replies until strtobool accepts
one; none models a session that never provides a valid reply. -/
def user_yes_no_query : List String → Option Bool
  | [] => none
  | s :: rest =>
    match strtobool (strLower s) with
    | some b => some b
    | none => user_yes_no_query rest

/-- PlotData.file_overwrite_check: writing is safe outright when the
target does not exist, otherwise the user is asked. -/
def file_overwrite_check (targetExists : Bool) (replies : List String) :
    Option Bool :=
  if targetExists then user_yes_no_query replies else some true

/-- The observable outcome of the output stage of PlotData.plot. -/
inductive PlotOutput where
  | shown
  | saved (file : String) (dpi : Option Int)
  | notSaved (msg : String)

/-- The output stage (source lines 396-406): show interactively when no
output file is given; otherwise save when force is set or
file_overwrite_check allows it, and report without saving otherwise.
none models a prompt session that never terminates. -/
def outputStage (output_file : Option String) (dpi : Option Int) (force : Bool)
    (targetExists : Bool) (replies : List String) : Option PlotOutput :=
  match output_file with
  | none => some .shown
  | some f =>
    if force then some (.saved f dpi)
    else
      match file_overwrite_check targetExists replies with
      | some true => some (.saved f dpi)
      | some false => some (.notSaved "Figure not saved - file protected")
      | none => none

/-! ## Helper definitions for the statements below -/

/-- The four boolean flags of a ChartConfig, bundled for preservation
reasoning. -/
def flagsOf (c : ChartConfig) : Bool × Bool × Bool × Bool :=
  (c.x_ticks_minor, c.y_ticks_minor, c.grid_major, c.grid_minor)

/-- Whether a series data element produces a coordinate pair: a 1- or
2-element list, or a bare int or float (exact runtime type). -/
def producesPoint : JVal → Bool
  | .arr l => l.length == 1 || l.length == 2
  | .int _ => true
  | .float _ => true
  | _ => false

/-- A JSON object holding all four boolean-like keys, with grid_major set
to the JSON boolean true and the other three to values that are not
Python-equal to 1 or "True". -/
def c2Input : JObj :=
  [(X_TICKS_MINOR_KEY, .int 0), (Y_TICKS_MINOR_KEY, .int 0),
   (GRID_MAJOR_KEY, .bool true), (GRID_MINOR_KEY, .int 0)]

/-- The configuration process_json produces from c2Input. -/
def c2Config : ChartConfig := { defaultConfig with grid_major := true }

/-! ## Shared helper lemmas -/

/-- An Except bind yields ok iff both stages do. -/
theorem exbind_ok_iff {ε α β : Type} (m : Except ε α) (f : α → Except ε β) (b : β) :
    (m >>= f = Except.ok b) ↔ ∃ a, m = Except.ok a ∧ f a = Except.ok b := by
  cases m with
  | ok a => simp [Bind.bind, Except.bind]
  | error e => simp [Bind.bind, Except.bind]

/-- The accumulate-true loop pattern of the source: folding
`if p a: acc = True` over a list is the same as init or any. -/
theorem foldl_if_or {α : Type} (p : α → Bool) :
    ∀ (l : List α) (init : Bool),
      l.foldl (fun acc a => if p a then true else acc) init = (init || l.any p) := by
  intro l
  induction l with
  | nil => intro init; simp
  | cons a t ih =>
    intro init
    simp only [List.foldl_cons, List.any_cons, ih]
    cases hpa : p a <;> simp [hpa]

/-! ## C1 -/

/-- C1: the claim says loading the empty JSON object produces the
documented defaults and completes without error.  The defaults of
PlotData.__init__ are exactly the documented ones, but process_json on the
empty object raises an uncaught KeyError at the x_ticks_minor check: the
clause `or raw_json[KEY] == "True"` sits outside the `KEY in raw_json`
guard, so the absent key is looked up anyway.  The claim is right about
the intent and the code is wrong (operator-precedence slip). -/
theorem c1_empty_object_load_crashes :
    defaultConfig.title = none ∧ defaultConfig.x_label = none ∧
    defaultConfig.y_label = none ∧
    defaultConfig.legend_y_offset = JVal.float (-0.15) ∧
    defaultConfig.legend_loc = JVal.str "best" ∧
    defaultConfig.x_lim = none ∧ defaultConfig.y_lim = none ∧
    defaultConfig.x_scale = none ∧ defaultConfig.y_scale = none ∧
    defaultConfig.x_log_base = JVal.int 10 ∧ defaultConfig.y_log_base = JVal.int 10 ∧
    defaultConfig.x_ticks = none ∧ defaultConfig.y_ticks = none ∧
    defaultConfig.x_ticks_labels = none ∧ defaultConfig.y_ticks_labels = none ∧
    defaultConfig.x_ticks_minor = false ∧ defaultConfig.y_ticks_minor = false ∧
    defaultConfig.grid_major = false ∧ defaultConfig.grid_minor = false ∧
    defaultConfig.series_data = none ∧ defaultConfig.fill_data = none ∧
    process_json [] = Except.error (PyErr.keyError X_TICKS_MINOR_KEY) ∧
    process_file true "chart.json" (some (JVal.obj []))
      = LoadResult.uncaught (PyErr.keyError X_TICKS_MINOR_KEY) :=
  ⟨rfl, rfl, rfl, rfl, rfl, rfl, rfl, rfl, rfl, rfl, rfl, rfl, rfl, rfl, rfl,
   rfl, rfl, rfl, rfl, rfl, rfl, rfl, rfl⟩

/-! ## C4 -/

/-- C4 counterexample: the claim says every fill data element of a shape
other than a 2- or 3-element triple is silently skipped without raising an
error, but a bare number element reaches len(values) and raises an
uncaught TypeError. -/
theorem c4_counterexample_scalar_fill_element_raises :
    fillPointsGo [JVal.int 5] [] [] [] = Except.error PyErr.typeError := rfl

/-- C4 (amended): fill normalization keeps 3-element triples as-is,
expands 2-element pairs with a lower bound of 0, silently skips list
elements of any other length, and raises TypeError (rather than skipping)
on any element len() rejects; the example data produces exactly the
triples (0,1,2) and (1,0,3). -/
theorem c4_fill_normalization :
    (∀ (rest x y0 y1 : List JVal) (a b c : JVal),
        fillPointsGo (JVal.arr [a, b, c] :: rest) x y0 y1
          = fillPointsGo rest (x ++ [a]) (y0 ++ [b]) (y1 ++ [c]))
  ∧ (∀ (rest x y0 y1 : List JVal) (a b : JVal),
        fillPointsGo (JVal.arr [a, b] :: rest) x y0 y1
          = fillPointsGo rest (x ++ [a]) (y0 ++ [JVal.int 0]) (y1 ++ [b]))
  ∧ (∀ (l rest x y0 y1 : List JVal), l.length ≠ 2 → l.length ≠ 3 →
        fillPointsGo (JVal.arr l :: rest) x y0 y1 = fillPointsGo rest x y0 y1)
  ∧ (∀ (v : JVal) (rest x y0 y1 : List JVal),
        pyLen v = Except.error PyErr.typeError →
        fillPointsGo (v :: rest) x y0 y1 = Except.error PyErr.typeError)
  ∧ fillPointsGo [JVal.arr [JVal.int 0, JVal.int 1, JVal.int 2],
                  JVal.arr [JVal.int 1, JVal.int 3]] [] [] []
      = Except.ok ([JVal.int 0, JVal.int 1], [JVal.int 1, JVal.int 0],
                   [JVal.int 2, JVal.int 3]) := by
  refine ⟨fun rest x y0 y1 a b c => rfl, fun rest x y0 y1 a b => rfl, ?_, ?_, rfl⟩
  · intro l rest x y0 y1 h2 h3
    have hb2 : (l.length == 2) = false := beq_eq_false_iff_ne.mpr h2
    have hb3 : (l.length == 3) = false := beq_eq_false_iff_ne.mpr h3
    simp [fillPointsGo, pyLen, hb2, hb3]
  · intro v rest x y0 y1 hv
    simp [fillPointsGo, hv]

/-- C4 witness: the amended skip and TypeError clauses at concrete inputs. -/
theorem c4_fill_normalization_witness :
    (([] : List JVal).length ≠ 2 ∧ ([] : List JVal).length ≠ 3 ∧
      fillPointsGo [JVal.arr []] [] [] [] = fillPointsGo [] [] [] []) ∧
    (pyLen JVal.null = Except.error PyErr.typeError ∧
      fillPointsGo [JVal.null] [] [] [] = Except.error PyErr.typeError) :=
  ⟨⟨by decide, by decide,
    c4_fill_normalization.2.2.1 [] [] [] [] [] (by decide) (by decide)⟩,
   ⟨rfl, c4_fill_normalization.2.2.2.1 JVal.null [] [] [] [] rfl⟩⟩

/-! ## C5 -/

/-- C5: series normalization appends (x, y) for a 2-element list,
(len(x), y) for a 1-element list, (len(x), v) for a bare int or float, and
skips every other shape; the example data produces x = [0,1,2],
y = [1,2,2]. -/
theorem c5_series_normalization :
    (∀ (rest x y : List JVal) (a b : JVal),
        seriesPointsGo (JVal.arr [a, b] :: rest) x y
          = seriesPointsGo rest (x ++ [a]) (y ++ [b]))
  ∧ (∀ (rest x y : List JVal) (a : JVal),
        seriesPointsGo (JVal.arr [a] :: rest) x y
          = seriesPointsGo rest (x ++ [JVal.int x.length]) (y ++ [a]))
  ∧ (∀ (rest x y : List JVal) (n : Int),
        seriesPointsGo (JVal.int n :: rest) x y
          = seriesPointsGo rest (x ++ [JVal.int x.length]) (y ++ [JVal.int n]))
  ∧ (∀ (rest x y : List JVal) (q : Rat),
        seriesPointsGo (JVal.float q :: rest) x y
          = seriesPointsGo rest (x ++ [JVal.int x.length]) (y ++ [JVal.float q]))
  ∧ (∀ (v : JVal) (rest x y : List JVal), producesPoint v = false →
        seriesPointsGo (v :: rest) x y = seriesPointsGo rest x y)
  ∧ seriesPointsGo [JVal.arr [JVal.int 0, JVal.int 1],
                    JVal.arr [JVal.int 1, JVal.int 2], JVal.int 2] [] []
      = ([JVal.int 0, JVal.int 1, JVal.int 2],
         [JVal.int 1, JVal.int 2, JVal.int 2]) := by
  refine ⟨fun rest x y a b => rfl, fun rest x y a => rfl, fun rest x y n => rfl,
    fun rest x y q => rfl, ?_, rfl⟩
  intro v rest x y hp
  cases v with
  | null => rfl
  | bool b => rfl
  | str s => rfl
  | obj kv => rfl
  | int n => simp [producesPoint] at hp
  | float q => simp [producesPoint] at hp
  | arr l =>
    rcases l with _ | ⟨a, _ | ⟨b, _ | ⟨c, t⟩⟩⟩
    · rfl
    · simp [producesPoint] at hp
    · simp [producesPoint] at hp
    · rfl

/-- C5 witness: the skip clause at a concrete non-point element. -/
theorem c5_series_normalization_witness :
    producesPoint (JVal.str "label") = false ∧
    seriesPointsGo [JVal.str "label"] [] [] = seriesPointsGo [] [] [] :=
  ⟨rfl, c5_series_normalization.2.2.2.2.1 (JVal.str "label") [] [] [] rfl⟩

/-! ## C6 -/

/-- C6: the claim lists MissingFile and InvalidFormat as the only fatal
error kinds.  The first two conjuncts confirm those two outcomes; the
third shows a third fatal outcome the claim excludes: an existing file
containing the valid JSON `{}` makes process_json raise an uncaught
KeyError (the flag-key precedence slip), which is not a ValueError and so
escapes the loader's try/except as a traceback. -/
theorem c6_loader_outcomes :
    (∀ (path : String) (decoded : Option JVal),
        process_file false path decoded
          = LoadResult.sysExit ("Error: File `" ++ path ++ "` does not exist"))
  ∧ (∀ (path : String),
        process_file true path none
          = LoadResult.sysExit "Error: Please specify a valid JSON file")
  ∧ process_file true "plot.json" (some (JVal.obj []))
      = LoadResult.uncaught (PyErr.keyError X_TICKS_MINOR_KEY) :=
  ⟨fun path decoded => rfl, fun path => rfl, rfl⟩

/-! ## C7 -/

/-- C7: with an output path, an existing target, no force flag and a "no"
reply, the output stage reports the figure as not saved (the exact printed
message) and performs no save; strtobool maps the lowercased "no" to
False, which file_overwrite_check returns. -/
theorem c7_decline_overwrite_not_saved :
    strtobool (strLower "no") = some false
  ∧ file_overwrite_check true ["no"] = some false
  ∧ (∀ (f : String) (dpi : Option Int),
      outputStage (some f) dpi false true ["no"]
        = some (PlotOutput.notSaved "Figure not saved - file protected")) :=
  ⟨rfl, rfl, fun f dpi => rfl⟩

/-! ## C8 -/

/-- C8: a one-element limit sets only the lower bound, a two-element limit
sets both, and when the axis scale compares equal to "log" and the given
lower bound compares equal to 0 the int 1 is substituted for it. -/
theorem c8_axis_limit_semantics :
    (∀ (a : JVal) (sc : Option JVal),
        limitEffect [a] sc
          = Except.ok (LimEffect.lower
              (if scaleIsLog sc && pyEq0 a then JVal.int 1 else a)))
  ∧ (∀ (a b : JVal) (sc : Option JVal),
        limitEffect [a, b] sc
          = Except.ok (LimEffect.both
              (if scaleIsLog sc && pyEq0 a then JVal.int 1 else a) b))
  ∧ limitEffect [JVal.int 0, JVal.int 7] (some (JVal.str "log"))
      = Except.ok (LimEffect.both (JVal.int 1) (JVal.int 7))
  ∧ limitEffect [JVal.int 0] (some (JVal.str "log"))
      = Except.ok (LimEffect.lower (JVal.int 1))
  ∧ limitEffect [JVal.int 0] (some (JVal.str "linear"))
      = Except.ok (LimEffect.lower (JVal.int 0)) := by
  refine ⟨?_, ?_, rfl, rfl, rfl⟩
  · intro a sc
    simp [limitEffect, listIdx]
  · intro a b sc
    simp [limitEffect, listIdx]

/-! ## C9 -/

/-- C9 counterexample: the claim says a null minor-tick locator is
installed whenever the two flags are not both set, but with the minor-tick
flag set and the minor-grid flag unset the source installs no locator at
all. -/
theorem c9_counterexample_minor_ticks_not_nulled :
    minorTickSetup true false = MinorTickAction.untouched ∧
    minorTickSetup true false ≠ MinorTickAction.nullLocator := by
  exact ⟨rfl, by decide⟩

/-- C9 (amended): the null locator is installed exactly when the axis's
minor-tick flag is unset; the automatic locator exactly when both that
flag and the minor-grid flag are set; with the flag set but minor-grid
unset nothing is installed and the library default stands. -/
theorem c9_minor_tick_semantics :
    ∀ (tm gm : Bool),
      (minorTickSetup tm gm = MinorTickAction.nullLocator ↔ tm = false)
    ∧ (minorTickSetup tm gm = MinorTickAction.autoMinorLocator
        ↔ tm = true ∧ gm = true)
    ∧ (minorTickSetup tm gm = MinorTickAction.untouched
        ↔ tm = true ∧ gm = false) := by
  decide

/-! ## C10 -/

/-- C10: a JSON boolean element of a series data array is skipped by the
exact-runtime-type test of the bare-scalar branch and contributes no
coordinate pair, even though the same loader's flag checks treat the JSON
boolean true as equal to 1. -/
theorem c10_bool_data_elements_skipped :
    (∀ (b : Bool) (rest x y : List JVal),
        seriesPointsGo (JVal.bool b :: rest) x y = seriesPointsGo rest x y)
  ∧ pyEq1 (JVal.bool true) = true
  ∧ flagTruthy (JVal.bool true) = true :=
  ⟨fun b rest x y => rfl, rfl, rfl⟩

/-! ## Helper lemmas for the process_json flag analysis -/

/-- A pure-Except value yields ok iff it is that value. -/
theorem expure_ok_iff {ε α : Type} (a b : α) :
    (pure a : Except ε α) = Except.ok b ↔ a = b := by
  constructor
  · intro h; injection h
  · intro h; rw [h]; rfl

/-- stepCopy preserves the four flags whenever its update does. -/
theorem stepCopy_flags (key : String) (upd : JVal → ChartConfig → ChartConfig)
    (o : JObj) (c : ChartConfig) (h : ∀ v c, flagsOf (upd v c) = flagsOf c) :
    flagsOf (stepCopy key upd o c) = flagsOf c := by
  unfold stepCopy
  cases lookup? o key with
  | some v => exact h v c
  | none => rfl

/-- stepLim preserves the four flags whenever its update does. -/
theorem stepLim_flags (key : String) (upd : List JVal → ChartConfig → ChartConfig)
    (o : JObj) (c : ChartConfig) (h : ∀ l c, flagsOf (upd l c) = flagsOf c) :
    flagsOf (stepLim key upd o c) = flagsOf c := by
  unfold stepLim
  cases lookup? o key with
  | none => rfl
  | some v =>
    cases v with
    | arr l =>
      by_cases hl : l.length > 0
      · simp only [if_pos hl]
        exact h l c
      · simp only [if_neg hl]
    | null => rfl
    | bool b => rfl
    | int n => rfl
    | float q => rfl
    | str s => rfl
    | obj kv => rfl

/-- A successful stepSized preserves the four flags whenever its update
does. -/
theorem stepSized_flags (key : String) (upd : JVal → ChartConfig → ChartConfig)
    (o : JObj) (c c' : ChartConfig) (hupd : ∀ v c, flagsOf (upd v c) = flagsOf c)
    (h : stepSized key upd o c = Except.ok c') :
    flagsOf c' = flagsOf c := by
  unfold stepSized at h
  split at h
  · split at h
    · cases h
    · injection h with h
      subst h
      split
      · apply hupd
      · rfl
  · injection h with h
    subst h
    rfl

/-- A successful stepLegendLoc preserves the four flags. -/
theorem stepLegendLoc_flags (o : JObj) (c c' : ChartConfig)
    (h : stepLegendLoc o c = Except.ok c') : flagsOf c' = flagsOf c := by
  unfold stepLegendLoc at h
  split at h
  · split at h
    · injection h with h; subst h; rfl
    · split at h
      · cases h
      · injection h with h
        subst h
        split
        · rfl
        · rfl
  · injection h with h; subst h; rfl

/-- A successful stepSeries preserves the four flags. -/
theorem stepSeries_flags (o : JObj) (c c' : ChartConfig)
    (h : stepSeries o c = Except.ok c') : flagsOf c' = flagsOf c := by
  unfold stepSeries at h
  split at h
  · split at h
    · cases h
    · injection h with h; subst h; rfl
  · injection h with h; subst h; rfl

/-- A successful stepFill preserves the four flags. -/
theorem stepFill_flags (o : JObj) (c c' : ChartConfig)
    (h : stepFill o c = Except.ok c') : flagsOf c' = flagsOf c := by
  unfold stepFill at h
  split at h
  · split at h
    · cases h
    · injection h with h; subst h; rfl
  · injection h with h; subst h; rfl

/-- A successful stepFlag comes from a successful flagCheck, setting the
field exactly when the check said true. -/
theorem stepFlag_ok (key : String) (upd : ChartConfig → ChartConfig)
    (o : JObj) (c c' : ChartConfig) (h : stepFlag key upd o c = Except.ok c') :
    ∃ b, flagCheck o key = Except.ok b ∧ c' = (if b then upd c else c) := by
  unfold stepFlag at h
  split at h
  · cases h
  · injection h with h
    subst h
    rename_i b heq
    exact ⟨b, heq, rfl⟩

/-- flagCheck succeeds exactly on present keys, answering flagTruthy of
the stored value (and raises KeyError on absent keys). -/
theorem flagCheck_ok_iff (o : JObj) (key : String) (b : Bool) :
    flagCheck o key = Except.ok b ↔
      ∃ v, lookup? o key = some v ∧ flagTruthy v = b := by
  unfold flagCheck
  cases lookup? o key with
  | some v => simp
  | none => simp

/-! ## C2 -/

/-- C2 counterexample: the claim says the JSON boolean true leaves
grid_major at its default false, but Python's True == 1 makes the flag
check succeed: on an input whose grid_major value is the JSON boolean
true (and whose other three flag keys hold the int 0), process_json
completes and sets grid_major to true. -/
theorem c2_counterexample_json_true_sets_grid_major :
    lookup? c2Input GRID_MAJOR_KEY = some (JVal.bool true) ∧
    (process_json c2Input).map (fun c => c.grid_major) = Except.ok true :=
  ⟨rfl, rfl⟩

/-- C2 (amended): whenever process_json completes, all four boolean-like
keys were present, and each flag ends up true exactly when the stored
value compares Python-equal to 1 (the int 1, the float 1.0 or the JSON
boolean true) or equals the string "True"; when any of the four keys is
absent the loader raises KeyError instead of leaving the default false. -/
theorem c2_flag_assignment_semantics (o : JObj) (cfg : ChartConfig)
    (h : process_json o = Except.ok cfg) :
    ((∃ v, lookup? o X_TICKS_MINOR_KEY = some v) ∧
     (∃ v, lookup? o Y_TICKS_MINOR_KEY = some v) ∧
     (∃ v, lookup? o GRID_MAJOR_KEY = some v) ∧
     (∃ v, lookup? o GRID_MINOR_KEY = some v)) ∧
    (cfg.x_ticks_minor = true ↔
      ∃ v, lookup? o X_TICKS_MINOR_KEY = some v ∧ flagTruthy v = true) ∧
    (cfg.y_ticks_minor = true ↔
      ∃ v, lookup? o Y_TICKS_MINOR_KEY = some v ∧ flagTruthy v = true) ∧
    (cfg.grid_major = true ↔
      ∃ v, lookup? o GRID_MAJOR_KEY = some v ∧ flagTruthy v = true) ∧
    (cfg.grid_minor = true ↔
      ∃ v, lookup? o GRID_MINOR_KEY = some v ∧ flagTruthy v = true) := by
  unfold process_json at h
  simp only [exbind_ok_iff, expure_ok_iff] at h
  obtain ⟨c1, h1, c2, h2, c3, h3, c4, h4, c5, h5, c6, h6, c7, h7, c8, h8,
    c9, h9, c10, h10, c11, h11, hcfg⟩ := h
  have f1 : flagsOf c1 = (false, false, false, false) := by
    rw [stepLegendLoc_flags _ _ _ h1]
    rw [stepCopy_flags _ _ _ _ (by intro u w; rfl), stepCopy_flags _ _ _ _ (by intro u w; rfl),
        stepCopy_flags _ _ _ _ (by intro u w; rfl), stepCopy_flags _ _ _ _ (by intro u w; rfl)]
    rfl
  have f2 : flagsOf c2 = (false, false, false, false) := by
    rw [stepSized_flags _ _ _ _ _ (by intro u w; rfl) h2]
    rw [stepCopy_flags _ _ _ _ (by intro u w; rfl), stepCopy_flags _ _ _ _ (by intro u w; rfl),
        stepCopy_flags _ _ _ _ (by intro u w; rfl), stepCopy_flags _ _ _ _ (by intro u w; rfl),
        stepLim_flags _ _ _ _ (by intro u w; rfl), stepLim_flags _ _ _ _ (by intro u w; rfl)]
    exact f1
  have f3 : flagsOf c3 = (false, false, false, false) := by
    rw [stepSized_flags _ _ _ _ _ (by intro u w; rfl) h3]; exact f2
  have f4 : flagsOf c4 = (false, false, false, false) := by
    rw [stepSized_flags _ _ _ _ _ (by intro u w; rfl) h4]; exact f3
  have f5 : flagsOf c5 = (false, false, false, false) := by
    rw [stepSized_flags _ _ _ _ _ (by intro u w; rfl) h5]; exact f4
  simp only [flagsOf, Prod.mk.injEq] at f5
  obtain ⟨b1, hb1, hc6⟩ := stepFlag_ok _ _ _ _ _ h6
  have f6 : flagsOf c6 = (b1, false, false, false) := by
    subst hc6
    cases b1 <;> simp [flagsOf, Prod.mk.injEq, f5.1, f5.2.1, f5.2.2.1, f5.2.2.2]
  simp only [flagsOf, Prod.mk.injEq] at f6
  obtain ⟨b2, hb2, hc7⟩ := stepFlag_ok _ _ _ _ _ h7
  have f7 : flagsOf c7 = (b1, b2, false, false) := by
    subst hc7
    cases b2 <;> simp [flagsOf, Prod.mk.injEq, f6.1, f6.2.1, f6.2.2.1, f6.2.2.2]
  simp only [flagsOf, Prod.mk.injEq] at f7
  obtain ⟨b3, hb3, hc8⟩ := stepFlag_ok _ _ _ _ _ h8
  have f8 : flagsOf c8 = (b1, b2, b3, false) := by
    subst hc8
    cases b3 <;> simp [flagsOf, Prod.mk.injEq, f7.1, f7.2.1, f7.2.2.1, f7.2.2.2]
  simp only [flagsOf, Prod.mk.injEq] at f8
  obtain ⟨b4, hb4, hc9⟩ := stepFlag_ok _ _ _ _ _ h9
  have f9 : flagsOf c9 = (b1, b2, b3, b4) := by
    subst hc9
    cases b4 <;> simp [flagsOf, Prod.mk.injEq, f8.1, f8.2.1, f8.2.2.1, f8.2.2.2]
  have f10 : flagsOf c10 = (b1, b2, b3, b4) := by
    rw [stepSeries_flags _ _ _ h10]; exact f9
  have f11 : flagsOf c11 = (b1, b2, b3, b4) := by
    rw [stepFill_flags _ _ _ h11]; exact f10
  have fcfg : flagsOf cfg = (b1, b2, b3, b4) := by
    rw [← hcfg]
    rw [stepCopy_flags _ _ _ _ (by intro u w; rfl), stepCopy_flags _ _ _ _ (by intro u w; rfl),
        stepCopy_flags _ _ _ _ (by intro u w; rfl), stepCopy_flags _ _ _ _ (by intro u w; rfl),
        stepCopy_flags _ _ _ _ (by intro u w; rfl)]
    exact f11
  simp only [flagsOf, Prod.mk.injEq] at fcfg
  rw [flagCheck_ok_iff] at hb1 hb2 hb3 hb4
  obtain ⟨v1, hv1, ht1⟩ := hb1
  obtain ⟨v2, hv2, ht2⟩ := hb2
  obtain ⟨v3, hv3, ht3⟩ := hb3
  obtain ⟨v4, hv4, ht4⟩ := hb4
  refine ⟨⟨⟨v1, hv1⟩, ⟨v2, hv2⟩, ⟨v3, hv3⟩, ⟨v4, hv4⟩⟩, ?_, ?_, ?_, ?_⟩
  · constructor
    · intro hx
      exact ⟨v1, hv1, ht1.trans (fcfg.1.symm.trans hx)⟩
    · rintro ⟨v, hv, ht⟩
      have hvv : v1 = v := Option.some.inj (hv1.symm.trans hv)
      rw [hvv] at ht1
      exact fcfg.1.trans (ht1.symm.trans ht)
  · constructor
    · intro hx
      exact ⟨v2, hv2, ht2.trans (fcfg.2.1.symm.trans hx)⟩
    · rintro ⟨v, hv, ht⟩
      have hvv : v2 = v := Option.some.inj (hv2.symm.trans hv)
      rw [hvv] at ht2
      exact fcfg.2.1.trans (ht2.symm.trans ht)
  · constructor
    · intro hx
      exact ⟨v3, hv3, ht3.trans (fcfg.2.2.1.symm.trans hx)⟩
    · rintro ⟨v, hv, ht⟩
      have hvv : v3 = v := Option.some.inj (hv3.symm.trans hv)
      rw [hvv] at ht3
      exact fcfg.2.2.1.trans (ht3.symm.trans ht)
  · constructor
    · intro hx
      exact ⟨v4, hv4, ht4.trans (fcfg.2.2.2.symm.trans hx)⟩
    · rintro ⟨v, hv, ht⟩
      have hvv : v4 = v := Option.some.inj (hv4.symm.trans hv)
      rw [hvv] at ht4
      exact fcfg.2.2.2.trans (ht4.symm.trans ht)

/-- C2 witness: the amended flag semantics evaluated on a concrete input
holding all four keys, with grid_major set to the JSON boolean true. -/
theorem c2_flag_assignment_semantics_witness :
    ((∃ v, lookup? c2Input X_TICKS_MINOR_KEY = some v) ∧
     (∃ v, lookup? c2Input Y_TICKS_MINOR_KEY = some v) ∧
     (∃ v, lookup? c2Input GRID_MAJOR_KEY = some v) ∧
     (∃ v, lookup? c2Input GRID_MINOR_KEY = some v)) ∧
    (c2Config.x_ticks_minor = true ↔
      ∃ v, lookup? c2Input X_TICKS_MINOR_KEY = some v ∧ flagTruthy v = true) ∧
    (c2Config.y_ticks_minor = true ↔
      ∃ v, lookup? c2Input Y_TICKS_MINOR_KEY = some v ∧ flagTruthy v = true) ∧
    (c2Config.grid_major = true ↔
      ∃ v, lookup? c2Input GRID_MAJOR_KEY = some v ∧ flagTruthy v = true) ∧
    (c2Config.grid_minor = true ↔
      ∃ v, lookup? c2Input GRID_MINOR_KEY = some v ∧ flagTruthy v = true) :=
  c2_flag_assignment_semantics c2Input c2Config rfl

/-! ## Helper lemmas for the series-selection analysis -/


theorem foldl_or_any {α : Type} (p : α → Bool) :
    ∀ (l : List α) (init : Bool),
      l.foldl (fun acc a => p a || acc) init = (init || l.any p) := by
  intro l
  induction l with
  | nil => intro init; simp
  | cons a t ih =>
    intro init
    simp only [List.foldl_cons, List.any_cons, ih]
    cases hpa : p a <;> cases init <;> simp [hpa]

set_option maxHeartbeats 1000000 in
theorem plotSeriesDecisionEval1 (name : String) (lf : List String) (lr : List Rx)
    (hp : lf.any (fun s => isSubstrB s name) = true) :
    plotSeriesDecision name (some lf) (some lr) = Except.ok true := by
  simp [plotSeriesDecision, foldl_or_any, hp]

set_option maxHeartbeats 1000000 in
theorem plotSeriesDecisionEval2 (name : String) (lf : List String) (p : Rx) (ps : List Rx)
    (hp : lf.any (fun s => isSubstrB s name) = false) :
    plotSeriesDecision name (some lf) (some (p :: ps)) =
      Except.ok ((p :: ps).any (fun q => reMatch q name)) := by
  simp [plotSeriesDecision, compiledExpressions, foldl_or_any, hp]

set_option maxHeartbeats 1000000 in
theorem plotSeriesDecisionEval3 (name : String) (lf : List String)
    (hp : lf.any (fun s => isSubstrB s name) = false) :
    plotSeriesDecision name (some lf) (some []) = Except.error PyErr.typeError := by
  simp [plotSeriesDecision, compiledExpressions, foldl_or_any, hp]

set_option maxHeartbeats 1000000 in
theorem plotSeriesDecisionEval4 (name : String) (lf : List String) :
    plotSeriesDecision name (some lf) none =
      Except.ok (lf.any (fun s => isSubstrB s name)) := by
  simp [plotSeriesDecision, foldl_or_any]

set_option maxHeartbeats 1000000 in
theorem plotSeriesDecisionEval5 (name : String) (lr : List Rx) (hl : 0 < lr.length) :
    plotSeriesDecision name none (some lr) =
      Except.ok (lr.any (fun q => reMatch q name)) := by
  simp [plotSeriesDecision, compiledExpressions, foldl_or_any, hl]

set_option maxHeartbeats 1000000 in
theorem plotSeriesDecisionEval6 (name : String) :
    plotSeriesDecision name none none = Except.ok true := by
  simp [plotSeriesDecision]

set_option maxHeartbeats 1000000 in
theorem plotSeriesDecisionEval7 (name : String) :
    plotSeriesDecision name none (some []) = Except.error PyErr.typeError := by
  simp [plotSeriesDecision, compiledExpressions]

theorem c3_sel_ok (name : String) (f : Option (List String)) (r : Option (List Rx)) :
    plotSeriesDecision name f r = Except.ok true ↔
      (f = none ∧ r = none)
      ∨ (∃ l, f = some l ∧ ∃ s ∈ l, isSubstrB s name = true)
      ∨ (∃ l, r = some l ∧ ∃ p ∈ l, reMatch p name = true) := by
  cases f with
  | none =>
    cases r with
    | none => rw [plotSeriesDecisionEval6]; simp
    | some lr =>
      cases lr with
      | nil => rw [plotSeriesDecisionEval7]; simp
      | cons p ps =>
        rw [plotSeriesDecisionEval5 _ _ (by simp)]
        simp [List.any_eq_true]
  | some lf =>
    cases r with
    | none =>
      rw [plotSeriesDecisionEval4]
      simp [List.any_eq_true]
    | some lr =>
      cases hp : lf.any (fun s => isSubstrB s name) with
      | true =>
        rw [plotSeriesDecisionEval1 _ _ _ hp]
        exact iff_of_true rfl
          (Or.inr (Or.inl ⟨lf, rfl, List.any_eq_true.mp hp⟩))
      | false =>
        cases lr with
        | nil =>
          rw [plotSeriesDecisionEval3 _ _ hp]
          refine iff_of_false (by simp) ?_
          rintro (⟨h1, _⟩ | ⟨l, hl, s, hs, hsub⟩ | ⟨l, hl, q, hq, _⟩)
          · cases h1
          · obtain rfl : lf = l := Option.some.inj hl
            rw [List.any_eq_false] at hp
            exact absurd hsub (by simp [hp s hs])
          · obtain rfl : ([] : List Rx) = l := Option.some.inj hl
            cases hq
        | cons p ps =>
          rw [plotSeriesDecisionEval2 _ _ _ _ hp]
          have hp' : ∀ s ∈ lf, isSubstrB s name = false := by
            rw [List.any_eq_false] at hp
            intro s hs
            simpa using hp s hs
          simp [List.any_eq_true]
          intro s hs hsub
          exact absurd hsub (by simp [hp' s hs])

theorem c3_sel_err (name : String) (f : Option (List String)) (r : Option (List Rx)) :
    plotSeriesDecision name f r = Except.error PyErr.typeError ↔
      r = some [] ∧ ¬∃ l, f = some l ∧ ∃ s ∈ l, isSubstrB s name = true := by
  cases f with
  | none =>
    cases r with
    | none => rw [plotSeriesDecisionEval6]; simp
    | some lr =>
      cases lr with
      | nil =>
        rw [plotSeriesDecisionEval7]
        refine iff_of_true rfl ⟨rfl, ?_⟩
        rintro ⟨l, hl, _⟩
        cases hl
      | cons p ps =>
        rw [plotSeriesDecisionEval5 _ _ (by simp)]
        simp
  | some lf =>
    cases r with
    | none =>
      rw [plotSeriesDecisionEval4]
      simp
    | some lr =>
      cases hp : lf.any (fun s => isSubstrB s name) with
      | true =>
        rw [plotSeriesDecisionEval1 _ _ _ hp]
        refine iff_of_false (by simp) ?_
        rintro ⟨_, hno⟩
        exact hno ⟨lf, rfl, List.any_eq_true.mp hp⟩
      | false =>
        cases lr with
        | nil =>
          rw [plotSeriesDecisionEval3 _ _ hp]
          refine iff_of_true rfl ⟨rfl, ?_⟩
          rintro ⟨l, hl, s, hs, hsub⟩
          obtain rfl : lf = l := Option.some.inj hl
          rw [List.any_eq_false] at hp
          exact absurd hsub (by simp [hp s hs])
        | cons p ps =>
          rw [plotSeriesDecisionEval2 _ _ _ _ hp]
          simp

/-! ## C3 -/

/-- C3 counterexample: the claim says a supplied-but-empty filter list
leads to an unmatched series simply not being shown, with no error; but a
supplied-but-empty regex list leaves filter_expressions as None, and the
selection loop then iterates None and raises an uncaught TypeError. -/
theorem c3_counterexample_empty_regex_list_raises :
    plotSeriesDecision "alpha" none (some []) = Except.error PyErr.typeError := rfl

/-- C3 (amended): a series is selected iff no filter is supplied, or its
name contains some string of the name-filter list as a substring, or some
regex of the regex list matches at the start of its name; a supplied-but-
empty name-filter list auto-passes nothing without error, but a supplied-
but-empty regex list raises TypeError for every series not already
selected by the name filter; re.match is prefix-anchored but not a full
match, as the "al" versus "alpha" conjuncts show. -/
theorem c3_series_selection :
    (∀ (name : String) (f : Option (List String)) (r : Option (List Rx)),
        plotSeriesDecision name f r = Except.ok true ↔
          (f = none ∧ r = none)
          ∨ (∃ l, f = some l ∧ ∃ s ∈ l, isSubstrB s name = true)
          ∨ (∃ l, r = some l ∧ ∃ p ∈ l, reMatch p name = true))
  ∧ (∀ (name : String) (f : Option (List String)) (r : Option (List Rx)),
        plotSeriesDecision name f r = Except.error PyErr.typeError ↔
          r = some [] ∧ ¬∃ l, f = some l ∧ ∃ s ∈ l, isSubstrB s name = true)
  ∧ plotSeriesDecision "alpha" (some ["al"]) none = Except.ok true
  ∧ plotSeriesDecision "beta" (some ["al"]) none = Except.ok false
  ∧ plotSeriesDecision "alpha" (some []) none = Except.ok false
  ∧ reMatch (rxLit "al") "alpha" = true
  ∧ fullMatchL (rxLit "al") "alpha".data = false :=
  ⟨c3_sel_ok, c3_sel_err, rfl, rfl, rfl, rfl, rfl⟩
